import Mathlib

/-!
Verification of the quote-resolution and alert-evaluation engine of the
linebot-stock repository (src/app.py), as a shallow embedding in Lean 4.

Modelling conventions:
* Python floats / SQL DECIMAL prices are embedded as `Rat` (exact ordered
  arithmetic; the claims are about `<=` / `>=` comparisons, which agree).
* Dicts returned by providers become the `Quote` structure; Python `None`
  (and falsy results) become `Option.none`.
* The two network providers (`_get_twse_stock_info` including its internal
  offline fallback, and `_get_yfinance_stock_info`) are external I/O at the
  boundary of the pure logic; they are modelled as oracle functions
  `String → Option Quote` collected in a `Providers` environment.  Every
  definition below that routes between them is translated line-by-line from
  `StockService.get_stock_info` and friends.
* SQL tables become lists of records; an UPDATE becomes a `List.map` that
  rewrites the matching rows.
-/

/-- A stock quote, mirroring the dicts built in `StockService` (src/app.py):
fields `symbol`, `name`, `price`, `change`, `change_percent`, `source`,
`market_state`. -/
structure Quote where
  symbol : String
  name : String
  price : Rat
  change : Rat
  change_percent : Rat
  source : String
  market_state : String
deriving Repr, DecidableEq

/-- The external quote providers used by `StockService.get_stock_info`:
`twse` stands for `_get_twse_stock_info` (which internally already contains
the trading-hour gate and the `_get_twse_offline_data` retry ladder), and
`yfinance` stands for `_get_yfinance_stock_info`.  Both "never raise":
any failure is `none`. -/
structure Providers where
  twse : String → Option Quote
  yfinance : String → Option Quote

/-- `re.match(r'^\d+$', symbol)` in src/app.py line 45: the raw symbol is
classified domestic (Taiwan) exactly when it is a non-empty string of
digits. -/
def isAllDigits (s : String) : Bool :=
  !s.data.isEmpty && s.data.all Char.isDigit

/-- The static table `fallback_data` of `StockService._get_fallback_stock_info`
(src/app.py lines 329-340): `(symbol, (name, price, change, change_percent))`. -/
def fallback_data : List (String × String × Rat × Rat × Rat) :=
  [ ("AAPL", "Apple Inc.", 227.71, 2.30, 1.29),
    ("MSFT", "Microsoft Corporation", 499.01, 0.60, 0.12),
    ("GOOGL", "Alphabet Inc.", 140.75, 0.95, 0.68),
    ("AMZN", "Amazon.com Inc.", 145.30, -0.45, -0.31),
    ("TSLA", "Tesla Inc.", 240.80, 5.20, 2.21),
    ("NVDA", "NVIDIA Corporation", 875.30, 15.40, 1.79),
    ("META", "Meta Platforms Inc.", 320.15, -2.10, -0.65),
    ("2330", "台積電", 1225.00, 5.00, 0.87),
    ("0050", "元大台灣50", 145.20, 0.80, 0.55),
    ("2317", "鴻海", 105.50, -0.50, -0.47) ]

/-- `StockService._get_fallback_stock_info` (src/app.py lines 322-377): a
known symbol yields its `fallback_simulation` entry, any other symbol the
generic 100.00 placeholder tagged `fallback_generic`.  The function is total
(the Python function always returns a dict; its own `except` branch, which
returns the same shape tagged `fallback_emergency`, is unreachable in the
pure embedding). -/
def get_fallback_stock_info (symbol : String) : Quote :=
  match fallback_data.find? (fun e => e.1 == symbol) with
  | some (_, n, p, c, cp) =>
      { symbol := symbol, name := n, price := p, change := c,
        change_percent := cp, source := "fallback_simulation",
        market_state := "CLOSED" }
  | none =>
      { symbol := symbol, name := "股票 " ++ symbol, price := 100,
        change := 0, change_percent := 0, source := "fallback_generic",
        market_state := "CLOSED" }

/-- `StockService.get_stock_info` (src/app.py lines 40-65).  All-digit
symbols: try the TWSE provider with the bare symbol, then yfinance with the
`.TW` suffix appended; the result (possibly `none`) is returned as-is.
Any other symbol: try yfinance with the symbol passed verbatim, then fall
back to `_get_fallback_stock_info` (the source calls it twice in a row when
the first call is falsy, but `_get_fallback_stock_info` is total, so the
second call never runs and the branch collapses to one call). -/
def get_stock_info (P : Providers) (symbol : String) : Option Quote :=
  if isAllDigits symbol then
    match P.twse symbol with
    | some r => some r
    | none => P.yfinance (symbol ++ ".TW")
  else
    match P.yfinance symbol with
    | some r => some r
    | none => some (get_fallback_stock_info symbol)

/-- A row of the `stock_tracking` table (src/app.py lines 901-938):
`(user_id, symbol, target_price, action, is_active)`.  The `action` column
holds the literal command tokens 買進 (buy-trigger) / 賣出 (sell-trigger).
`created_at` is written by the database but never read by the core logic,
so it is not modelled. -/
structure AlertRecord where
  user_id : String
  symbol : String
  target_price : Rat
  action : String
  is_active : Bool
deriving Repr, DecidableEq

/-- A row of the append-only `price_alerts` history table
(src/app.py lines 914-923): `(user_id, symbol, target_price,
current_price, action)`; `triggered_at` is a database default, not read. -/
structure HistoryRecord where
  user_id : String
  symbol : String
  target_price : Rat
  current_price : Rat
  action : String
deriving Repr, DecidableEq

/-- The notification payload appended to `alerts` in `check_price_alerts`
(src/app.py lines 1231-1237) and later handed to `send_price_alert`. -/
structure Notification where
  user_id : String
  symbol : String
  target_price : Rat
  current_price : Rat
  action : String
deriving Repr, DecidableEq

/-- An entry of the in-memory fallback dict `stock_trackings`
(src/app.py lines 724 and 997-1003): `{'symbol', 'target_price', 'action'}`
(`created_at` is a timestamp string, not read anywhere, not modelled). -/
structure MemTracking where
  symbol : String
  target_price : Rat
  action : String
deriving Repr, DecidableEq

/-- The two durable tables created by `init_db`. -/
structure DBState where
  stock_tracking : List AlertRecord
  price_alerts : List HistoryRecord
deriving Repr, DecidableEq

/-- Whole storage state: the database plus the global in-memory fallback
dict `stock_trackings` (an association list user id ↦ entries). -/
structure SysState where
  db : DBState
  mem : List (String × List MemTracking)
deriving Repr, DecidableEq

/-- Availability of durable storage in one operation, capturing the two
distinct failure paths of src/app.py: `connFail` — `get_db_connection`
returns `None` (the functions hit their `if not conn: return` branch);
`opFail` — an exception is raised during the SQL work (the functions hit
their `except` branch). -/
inductive DBHealth where
  | ok
  | connFail
  | opFail
deriving Repr, DecidableEq

/-- Row test for the SQL `WHERE user_id = ? AND symbol = ? AND
target_price = ? AND action = ?` used by the upsert conflict target and the
deactivation UPDATEs. -/
def key_match (r : AlertRecord) (u s : String) (tp : Rat) (a : String) : Bool :=
  decide (r.user_id = u ∧ r.symbol = s ∧ r.target_price = tp ∧ r.action = a)

/-- The upsert of `add_stock_tracking` (src/app.py lines 969-983): PostgreSQL
`INSERT .. ON CONFLICT (user_id, symbol, target_price, action) DO UPDATE SET
is_active = TRUE`, SQLite `INSERT OR REPLACE`.  Either way: if a row with the
key exists it becomes active, otherwise a fresh active row is inserted. -/
def upsert_tracking (db : DBState) (u s : String) (tp : Rat) (a : String) : DBState :=
  if db.stock_tracking.any (fun r => key_match r u s tp a) then
    { db with stock_tracking :=
        db.stock_tracking.map (fun r =>
          if key_match r u s tp a then { r with is_active := true } else r) }
  else
    { db with stock_tracking :=
        db.stock_tracking ++ [⟨u, s, tp, a, true⟩] }

/-- Appending to the in-memory fallback dict `stock_trackings`
(src/app.py lines 993-1005): create the user's list if missing, then
append the entry. -/
def mem_append (m : List (String × List MemTracking)) (u : String)
    (t : MemTracking) : List (String × List MemTracking) :=
  if m.any (fun e => decide (e.1 = u)) then
    m.map (fun e => if e.1 = u then (e.1, e.2 ++ [t]) else e)
  else
    m ++ [(u, [t])]

/-- `add_stock_tracking` (src/app.py lines 959-1008).  With a working
database it upserts and returns `True`.  When `get_db_connection` fails it
returns `False` outright (no fallback: the `return False` on line 965 is
inside the `try` but raises nothing).  When the SQL work raises, the
`except` branch appends to the in-memory `stock_trackings` dict and still
returns `True`.  No cooldown check and no symbol validation appear anywhere
in the function. -/
def add_stock_tracking (h : DBHealth) (st : SysState) (u s : String)
    (tp : Rat) (a : String) : SysState × Bool :=
  match h with
  | .ok => ({ st with db := upsert_tracking st.db u s tp a }, true)
  | .connFail => (st, false)
  | .opFail => ({ st with mem := mem_append st.mem u ⟨s, tp, a⟩ }, true)

/-- `get_user_trackings` (src/app.py lines 1010-1050): with a working
database, the user's active rows (projected to symbol/target/action; the
`created_at DESC` ordering is immaterial to the claims and kept as table
order); on a failed connection or an exception it returns `[]` — it never
reads the in-memory fallback dict. -/
def get_user_trackings (h : DBHealth) (st : SysState) (u : String) :
    List MemTracking :=
  match h with
  | .ok =>
      (st.db.stock_tracking.filter
        (fun r => decide (r.user_id = u) && r.is_active)).map
        (fun r => ⟨r.symbol, r.target_price, r.action⟩)
  | .connFail => []
  | .opFail => []

/-- `remove_all_trackings` (src/app.py lines 1120-1152): `UPDATE
stock_tracking SET is_active = FALSE WHERE user_id = ?` — every row of the
user is deactivated (rows are never deleted) and the function returns only
`True`; on any storage failure it returns `False` with no fallback. -/
def remove_all_trackings (h : DBHealth) (st : SysState) (u : String) :
    SysState × Bool :=
  match h with
  | .ok =>
      let rows := st.db.stock_tracking.map (fun r =>
        if r.user_id = u then { r with is_active := false } else r)
      ({ st with db := { st.db with stock_tracking := rows } }, true)
  | .connFail => (st, false)
  | .opFail => (st, false)

/-- The reply of the `取消全部` branch of `handle_message`
(src/app.py lines 1605-1610): one fixed success string when
`remove_all_trackings` returns `True`, one fixed failure string otherwise;
the count of removed rows is not reported and the zero-rows case is not
distinguished. -/
def handle_cancel_all (h : DBHealth) (st : SysState) (u : String) :
    SysState × String :=
  let res := remove_all_trackings h st u
  (res.1,
   if res.2 then "✅ 已取消所有股票追蹤"
   else "❌ 取消所有追蹤失敗，請稍後再試")

/-- The trigger test of `check_price_alerts` (src/app.py lines 1193-1200):
買進 (buy) fires when `current_price <= target_price`, 賣出 (sell) fires
when `current_price >= target_price`, anything else never fires. -/
def alert_triggered (action : String) (current_price target_price : Rat) : Bool :=
  if action = "買進" ∧ current_price ≤ target_price then true
  else if action = "賣出" ∧ target_price ≤ current_price then true
  else false

/-- `UPDATE stock_tracking SET is_active = FALSE WHERE user_id = ? AND
symbol = ? AND target_price = ? AND action = ?` (src/app.py lines 1212-1229). -/
def deactivate_matching (l : List AlertRecord) (u s : String) (tp : Rat)
    (a : String) : List AlertRecord :=
  l.map (fun r => if key_match r u s tp a then { r with is_active := false } else r)

/-- The per-tracking body of the loop in `check_price_alerts`
(src/app.py lines 1182-1237): fetch the current quote via
`StockService.get_stock_info` (skip the record when it is `None`), test the
trigger, and on trigger append a history row, deactivate the matching
tracking rows, and append one notification payload. -/
def alert_step (P : Providers) (acc : SysState × List Notification)
    (t : AlertRecord) : SysState × List Notification :=
  match get_stock_info P t.symbol with
  | none => acc
  | some q =>
      if alert_triggered t.action q.price t.target_price then
        let db2 : DBState :=
          { stock_tracking := deactivate_matching acc.1.db.stock_tracking
              t.user_id t.symbol t.target_price t.action,
            price_alerts := acc.1.db.price_alerts ++
              [⟨t.user_id, t.symbol, t.target_price, q.price, t.action⟩] }
        ({ acc.1 with db := db2 },
         acc.2 ++ [⟨t.user_id, t.symbol, t.target_price, q.price, t.action⟩])
      else acc

/-- `check_price_alerts` (src/app.py lines 1154-1245): fetch the snapshot of
all active rows (`WHERE is_active = TRUE`, across all users), loop over the
snapshot with `alert_step`, and return the list of notification payloads.
On a failed connection or an exception it returns `[]` and changes nothing. -/
def check_price_alerts (P : Providers) (h : DBHealth) (st : SysState) :
    SysState × List Notification :=
  match h with
  | .ok => (st.db.stock_tracking.filter (fun r => r.is_active)).foldl
      (alert_step P) (st, [])
  | .connFail => (st, [])
  | .opFail => (st, [])

/-- A wall-clock instant as the scheduler sees it: Python
`datetime.weekday()` (0 = Monday … 6 = Sunday) and the time of day in
seconds since midnight, both in the Asia/Taipei zone. -/
structure SchedTime where
  weekday : Nat
  seconds : Nat
deriving Repr, DecidableEq

/-- The single global gate of `price_check_scheduler`
(src/app.py lines 1281-1286): weekday (`weekday() < 5`) and
09:00:00 ≤ time ≤ 13:30:00 Taipei (32400 to 48600 seconds). -/
def is_trading_hours (t : SchedTime) : Bool :=
  decide (t.weekday < 5) && decide (32400 ≤ t.seconds) &&
    decide (t.seconds ≤ 48600)

/-- One iteration of the `price_check_scheduler` loop
(src/app.py lines 1276-1308): if the (single, Taiwan-market) trading-hours
gate is open, run `check_price_alerts` over the whole store and hand each
returned payload to delivery; otherwise skip the entire cycle — no provider
call, no state change, no notification, for every record regardless of its
asset class. -/
def scheduler_cycle (P : Providers) (h : DBHealth) (t : SchedTime)
    (st : SysState) : SysState × List Notification :=
  if is_trading_hours t then check_price_alerts P h st else (st, [])

/-- `n` consecutive evaluator cycles over the store, concatenating the
notifications they emit (the scheduler calls `check_price_alerts` once per
in-hours cycle). -/
def run_cycles (P : Providers) (h : DBHealth) (st : SysState) :
    Nat → SysState × List Notification
  | 0 => (st, [])
  | n + 1 =>
      let c := check_price_alerts P h st
      let rest := run_cycles P h c.1 n
      (rest.1, c.2 ++ rest.2)

/-- The quote cache, modelled from the spec.  src/app.py declares the cache
and its TTL (`cache = {}`, `cache_timeout = 300`, lines 719-721) but this
variant of the bot contains no code that reads or writes the cache (it is
only counted for diagnostics), so the `get`/`put` operations are modelled
from the spec: "`get(symbol)` returns the cached Quote only if
(now − insertion) < TTL; otherwise behaves as absent and does not
auto-evict"; "`put(symbol, quote)` unconditionally overwrites".  Times are
seconds as `Nat`; the TTL value 300 is the declared `cache_timeout`. -/
def cache_timeout : Nat := 300

/-- Modelled from the spec (§4.3 `put`, the `get`/`put` logic being absent
from src/app.py): unconditionally overwrite the entry for the symbol,
stamping the insertion time. -/
def cache_put (c : List (String × Quote × Nat)) (sym : String) (q : Quote)
    (now : Nat) : List (String × Quote × Nat) :=
  (sym, q, now) :: c.filter (fun e => !(e.1 == sym))

/-- Modelled from the spec (§4.3 `get`, the `get`/`put` logic being absent
from src/app.py): return the entry only while (now − insertion) < TTL; an
expired entry behaves as absent but is not evicted. -/
def cache_get (c : List (String × Quote × Nat)) (sym : String) (now : Nat) :
    Option Quote :=
  match c.find? (fun e => e.1 == sym) with
  | some (_, q, t) => if now - t < cache_timeout then some q else none
  | none => none

/-! Concrete provider environments and records used to evaluate the theorems
on closed inputs. -/

/-- Both providers unreachable: every fetch is absent. -/
def Pnone : Providers := ⟨fun _ => none, fun _ => none⟩

/-- The TWSE quote dict for 2330 at price 795 (shape of
`_get_twse_stock_info`). -/
def q795 : Quote :=
  { symbol := "2330", name := "台股2330", price := 795, change := 0,
    change_percent := 0, source := "twse", market_state := "REGULAR" }

/-- TWSE answers every symbol with the 795 quote; yfinance unreachable. -/
def P795 : Providers := ⟨fun _ => some q795, fun _ => none⟩

/-- An instrumented environment: yfinance echoes the exact symbol string it
was queried with in the `symbol` field (as the real
`_get_yfinance_stock_info` does); TWSE unreachable. -/
def Pprobe : Providers :=
  ⟨fun _ => none,
   fun s => some { symbol := s, name := s, price := 1, change := 0,
                   change_percent := 0, source := "yfinance",
                   market_state := "CLOSED" }⟩

/-- yfinance answers every symbol with price 250; TWSE unreachable. -/
def P250 : Providers :=
  ⟨fun _ => none,
   fun s => some { symbol := s, name := s, price := 250, change := 0,
                   change_percent := 0, source := "yfinance",
                   market_state := "CLOSED" }⟩

/-- An active buy-trigger tracking row: user U, 台積電 2330, target 800. -/
def r2330 : AlertRecord := ⟨"U", "2330", 800, "買進", true⟩

/-- An active buy-trigger tracking row on a foreign symbol: AAPL, target 300. -/
def rAAPL : AlertRecord := ⟨"U", "AAPL", 300, "買進", true⟩

/-- A store holding exactly the AAPL tracking row. -/
def stAAPL : SysState := ⟨⟨[rAAPL], []⟩, []⟩

/-! ## Helper lemmas -/

/-- Evaluating `check_price_alerts` over a store holding a single active row
is one pass of the loop body. -/
theorem check_singleton (P : Providers) (r : AlertRecord)
    (hact : r.is_active = true) :
    check_price_alerts P .ok ⟨⟨[r], []⟩, []⟩
      = alert_step P (⟨⟨[r], []⟩, []⟩, []) r := by
  simp [check_price_alerts, List.filter, hact]

/-- Deactivating by a row's own key rewrites exactly that row. -/
theorem deactivate_self (r : AlertRecord) :
    deactivate_matching [r] r.user_id r.symbol r.target_price r.action
      = [{ r with is_active := false }] := by
  simp [deactivate_matching, key_match]

/-- A store whose tracking rows are all inactive is a fixed point of the
evaluator: the snapshot query returns nothing, so nothing is fetched,
changed, or notified. -/
theorem check_all_inactive (P : Providers) (st : SysState)
    (h : ∀ r ∈ st.db.stock_tracking, r.is_active = false) :
    check_price_alerts P .ok st = (st, []) := by
  have hf : st.db.stock_tracking.filter (fun r => r.is_active) = [] := by
    apply List.filter_eq_nil_iff.mpr
    intro a ha
    simp [h a ha]
  simp [check_price_alerts, hf]

/-- Iterating the evaluator from a fixed point emits nothing, ever. -/
theorem run_cycles_fix (P : Providers) (h : DBHealth) (st : SysState)
    (hfix : check_price_alerts P h st = (st, [])) :
    ∀ n, run_cycles P h st n = (st, []) := by
  intro n
  induction n with
  | zero => rfl
  | succ m ih => simp [run_cycles, hfix, ih]

/-! ## Claim theorems -/

/-- C1: for every active alert record evaluated with a successfully fetched
current price, a 買進 (buy-trigger) record fires — produces a notification in
the evaluator cycle — if and only if the current price is `≤` the target,
and a 賣出 (sell-trigger) record fires if and only if the current price is
`≥` the target; both boundaries inclusive. -/
theorem trigger_boundary_iff (P : Providers) (r : AlertRecord) (q : Quote)
    (hact : r.is_active = true) (hq : get_stock_info P r.symbol = some q) :
    (r.action = "買進" →
      (((check_price_alerts P .ok ⟨⟨[r], []⟩, []⟩).2 ≠ []) ↔
        q.price ≤ r.target_price)) ∧
    (r.action = "賣出" →
      (((check_price_alerts P .ok ⟨⟨[r], []⟩, []⟩).2 ≠ []) ↔
        r.target_price ≤ q.price)) := by
  rw [check_singleton P r hact]
  have hbs : ("買進" : String) ≠ "賣出" := by decide
  constructor
  · intro ha
    by_cases hle : q.price ≤ r.target_price
    · simp [alert_step, hq, alert_triggered, ha, hle]
    · simp [alert_step, hq, alert_triggered, ha, hle, hbs]
  · intro ha
    by_cases hle : r.target_price ≤ q.price
    · simp [alert_step, hq, alert_triggered, ha, hle, hbs.symm]
    · simp [alert_step, hq, alert_triggered, ha, hle, hbs.symm]

/-- Witness for C1: the buy-trigger row (2330, target 800) fires when the
fetched price is 795. -/
theorem trigger_boundary_iff_witness :
    (check_price_alerts P795 .ok ⟨⟨[r2330], []⟩, []⟩).2 ≠ [] :=
  ((trigger_boundary_iff P795 r2330 q795 rfl rfl).1 rfl).mpr (by decide)

/-- C2: a triggered alert fires at most once: the cycle that fires it
appends exactly one history row, deactivates the record, and emits exactly
one notification; the resulting store is a fixed point of the evaluator, so
any sequence of `n ≥ 1` further cycles with the triggering price held still
emits exactly that one notification in total. -/
theorem alert_single_shot (P : Providers) (r : AlertRecord) (q : Quote)
    (hact : r.is_active = true)
    (hq : get_stock_info P r.symbol = some q)
    (htrig : alert_triggered r.action q.price r.target_price = true)
    (n : Nat) (hn : 1 ≤ n) :
    (check_price_alerts P .ok ⟨⟨[r], []⟩, []⟩).2
        = [⟨r.user_id, r.symbol, r.target_price, q.price, r.action⟩] ∧
    (check_price_alerts P .ok ⟨⟨[r], []⟩, []⟩).1.db.price_alerts
        = [⟨r.user_id, r.symbol, r.target_price, q.price, r.action⟩] ∧
    (check_price_alerts P .ok ⟨⟨[r], []⟩, []⟩).1.db.stock_tracking
        = [{ r with is_active := false }] ∧
    check_price_alerts P .ok (check_price_alerts P .ok ⟨⟨[r], []⟩, []⟩).1
        = ((check_price_alerts P .ok ⟨⟨[r], []⟩, []⟩).1, []) ∧
    (run_cycles P .ok ⟨⟨[r], []⟩, []⟩ n).2
        = [⟨r.user_id, r.symbol, r.target_price, q.price, r.action⟩] := by
  have hc : check_price_alerts P .ok ⟨⟨[r], []⟩, []⟩
      = (⟨⟨[{ r with is_active := false }],
            [⟨r.user_id, r.symbol, r.target_price, q.price, r.action⟩]⟩, []⟩,
         [⟨r.user_id, r.symbol, r.target_price, q.price, r.action⟩]) := by
    rw [check_singleton P r hact]
    simp [alert_step, hq, htrig, deactivate_self]
  have hfix2 := check_all_inactive P
    ⟨⟨[{ r with is_active := false }],
      [⟨r.user_id, r.symbol, r.target_price, q.price, r.action⟩]⟩, []⟩
    (by intro x hx; simp at hx; simp [hx])
  have hfix : check_price_alerts P .ok (check_price_alerts P .ok ⟨⟨[r], []⟩, []⟩).1
      = ((check_price_alerts P .ok ⟨⟨[r], []⟩, []⟩).1, []) := by
    rw [hc]
    exact hfix2
  refine ⟨by rw [hc], by rw [hc], by rw [hc], hfix, ?_⟩
  obtain ⟨m, rfl⟩ : ∃ m, n = m + 1 := by
    cases n with
    | zero => exact absurd hn (by decide)
    | succ m => exact ⟨m, rfl⟩
  have hrest := run_cycles_fix P .ok _ hfix2 m
  simp [run_cycles, hc, hrest]

/-- Witness for C2: with the price held at 795, the single buy-trigger row
(2330, target 800) yields exactly one notification across two cycles. -/
theorem alert_single_shot_witness :
    (run_cycles P795 .ok ⟨⟨[r2330], []⟩, []⟩ 2).2
      = [⟨"U", "2330", 800, 795, "買進"⟩] :=
  (alert_single_shot P795 r2330 q795 rfl rfl (by decide) 2 (by decide)).2.2.2.2

/-- C3 counterexample: the claim says every non-digit string "is upper-cased
before lookup", but `get_stock_info` passes the raw string verbatim to the
general-purpose provider: querying "aapl" against an instrumented provider
that echoes the queried string shows the provider receives "aapl", which is
not the upper-cased form "AAPL". -/
theorem foreign_symbol_not_uppercased :
    Option.map Quote.symbol (get_stock_info Pprobe "aapl") = some "aapl" ∧
    ("aapl" : String) ≠ "AAPL" := by
  constructor
  · rfl
  · decide

/-- C3 as amended: an all-digit string is classified domestic — routed bare
to the TWSE provider and, on a miss, to the general-purpose provider with
the `.TW` suffix appended; every other string is classified foreign and
routed to the general-purpose provider with the raw string passed verbatim
(no upper-casing; upper-casing happens only in the 美股 command handler,
outside the classifier), falling back to the static table on a miss. -/
theorem classifier_routing (P : Providers) (s : String) :
    (isAllDigits s = true →
      get_stock_info P s = match P.twse s with
        | some r => some r
        | none => P.yfinance (s ++ ".TW")) ∧
    (isAllDigits s = false →
      get_stock_info P s = match P.yfinance s with
        | some r => some r
        | none => some (get_fallback_stock_info s)) := by
  constructor <;> intro h <;> simp [get_stock_info, h]

/-- Witness for C3's amended theorem: evaluated at the domestic symbol
"2330" and the foreign symbol "aapl" in the echoing environment. -/
theorem classifier_routing_witness :
    get_stock_info Pprobe "2330" = Pprobe.yfinance "2330.TW" ∧
    get_stock_info Pprobe "aapl" = Pprobe.yfinance "aapl" := by
  constructor
  · exact (classifier_routing Pprobe "2330").1 (by decide)
  · have h := (classifier_routing Pprobe "aapl").2 (by decide)
    rw [h]
    rfl

/-- C4 counterexample: for the domestic (all-digit) symbol "2330" with both
the TWSE feed and the general-purpose feed returning absent, the lookup
returns absent — there is no third static-fallback stage on the domestic
branch, contrary to the claim that such a lookup "still yields a quote
rather than absent". -/
theorem domestic_fallback_absent : get_stock_info Pnone "2330" = none := rfl

/-- C4 as amended: the domestic provider chain has exactly two stages — the
TWSE feed, then the general-purpose feed on the `.TW`-suffixed symbol; when
both return absent the lookup returns absent.  The static fallback table
stage exists only on the foreign branch. -/
theorem domestic_chain_two_stages (P : Providers) (s : String)
    (h : isAllDigits s = true)
    (h1 : P.twse s = none) (h2 : P.yfinance (s ++ ".TW") = none) :
    get_stock_info P s = none := by
  simp [get_stock_info, h, h1, h2]

/-- Witness for C4's amended theorem: both providers absent on "2330". -/
theorem domestic_chain_two_stages_witness : get_stock_info Pnone "2330" = none :=
  domestic_chain_two_stages Pnone "2330" (by decide) rfl rfl

/-- C5 counterexample: immediately after an evaluator cycle fires the
(U, 2330, 800, 買進) alert — deactivating it and logging history — re-adding
the identical condition succeeds and re-activates the record; no cooldown
rejection occurs, with no elapsed time at all. -/
theorem readd_after_fire_succeeds :
    (check_price_alerts P795 .ok ⟨⟨[r2330], []⟩, []⟩).2.length = 1 ∧
    (check_price_alerts P795 .ok ⟨⟨[r2330], []⟩, []⟩).1.db.price_alerts
      = [⟨"U", "2330", 800, 795, "買進"⟩] ∧
    (add_stock_tracking .ok (check_price_alerts P795 .ok ⟨⟨[r2330], []⟩, []⟩).1
      "U" "2330" 800 "買進").2 = true ∧
    (add_stock_tracking .ok (check_price_alerts P795 .ok ⟨⟨[r2330], []⟩, []⟩).1
      "U" "2330" 800 "買進").1.db.stock_tracking = [r2330] := by
  refine ⟨?_, ?_, ?_, ?_⟩ <;> decide

/-- C5 as amended: `add_stock_tracking` performs no cooldown check (and no
symbol validation): with working storage it always succeeds, regardless of
the history table, leaving an active record with the requested key in the
store. -/
theorem add_tracking_no_cooldown (st : SysState) (u s : String) (tp : Rat)
    (a : String) :
    (add_stock_tracking .ok st u s tp a).2 = true ∧
    ((add_stock_tracking .ok st u s tp a).1.db.stock_tracking.any
      (fun r => key_match r u s tp a && r.is_active)) = true := by
  refine ⟨rfl, ?_⟩
  simp only [add_stock_tracking, upsert_tracking]
  by_cases hex : st.db.stock_tracking.any (fun r => key_match r u s tp a)
  · rw [if_pos hex]
    obtain ⟨r, hr, hkey⟩ := List.any_eq_true.mp hex
    apply List.any_eq_true.mpr
    refine ⟨{ r with is_active := true }, ?_, ?_⟩
    · apply List.mem_map.mpr
      exact ⟨r, hr, by simp [hkey]⟩
    · have : key_match { r with is_active := true } u s tp a = true := by
        simpa [key_match] using hkey
      simp [this]
  · rw [if_neg hex]
    apply List.any_eq_true.mpr
    refine ⟨⟨u, s, tp, a, true⟩, by simp, by simp [key_match]⟩

/-- C6: cache round-trip — after `put(sym, q)` at time `t`, a `get(sym)`
within the 300-second TTL returns exactly `q`, a `get(sym)` once the TTL has
elapsed returns absent, and `put` unconditionally overwrites any existing
entry for the symbol. -/
theorem cache_roundtrip (c : List (String × Quote × Nat)) (sym : String)
    (q : Quote) (t now : Nat) :
    (now - t < cache_timeout →
      cache_get (cache_put c sym q t) sym now = some q) ∧
    (cache_timeout ≤ now - t →
      cache_get (cache_put c sym q t) sym now = none) ∧
    (∀ q' t', cache_put (cache_put c sym q' t') sym q t = cache_put c sym q t) := by
  refine ⟨?_, ?_, ?_⟩
  · intro h
    simp [cache_get, cache_put, List.find?, h]
  · intro h
    simp [cache_get, cache_put, List.find?, Nat.not_lt.mpr h]
  · intro q' t'
    simp [cache_put, List.filter_filter]

/-- Witness for C6: a put at time 0 is returned at time 10 and absent at
time 300. -/
theorem cache_roundtrip_witness :
    cache_get (cache_put [] "2330" q795 0) "2330" 10 = some q795 ∧
    cache_get (cache_put [] "2330" q795 0) "2330" 300 = none :=
  ⟨(cache_roundtrip [] "2330" q795 0 10).1 (by decide),
   (cache_roundtrip [] "2330" q795 0 300).2.1 (by decide)⟩

/-- C7 counterexample: the scheduler has one global Taiwan-market gate, not a
per-record, per-asset-class gate.  At Monday 10:00:00 Taipei — inside the
domestic weekday 09:00–13:30 window but outside any evening/early-morning
window — a foreign-symbol (AAPL) record is NOT skipped: its provider is
consulted, it fires, and its state changes.  Conversely at Monday 22:00:00
Taipei — within US trading hours, i.e. the claimed foreign evening window —
the entire cycle, foreign records included, is skipped. -/
theorem foreign_alert_taiwan_gate :
    (scheduler_cycle P250 .ok ⟨0, 36000⟩ stAAPL).2.length = 1 ∧
    (scheduler_cycle P250 .ok ⟨0, 36000⟩ stAAPL).1.db.stock_tracking
      = [⟨"U", "AAPL", 300, "買進", false⟩] ∧
    scheduler_cycle P250 .ok ⟨0, 79200⟩ stAAPL = (stAAPL, []) := by
  refine ⟨?_, ?_, ?_⟩ <;> decide

/-- C7 as amended: the evaluator applies a single global trading-hours gate
— weekday 09:00–13:30 Asia/Taipei, the domestic market's window — to the
entire cycle, regardless of each record's asset class: outside the window
the whole cycle is skipped (no provider call, no state change, no
notification, for domestic and foreign records alike), and inside the window
every active record of every asset class is evaluated. -/
theorem scheduler_single_global_gate (P : Providers) (h : DBHealth)
    (t : SchedTime) (st : SysState) :
    (is_trading_hours t = false → scheduler_cycle P h t st = (st, [])) ∧
    (is_trading_hours t = true →
      scheduler_cycle P h t st = check_price_alerts P h st) := by
  constructor <;> intro ht <;> simp [scheduler_cycle, ht]

/-- Witness for C7's amended theorem: Saturday 10:00 Taipei skips the whole
cycle; Monday 10:00 Taipei runs the evaluator over the whole store. -/
theorem scheduler_single_global_gate_witness :
    scheduler_cycle P250 .ok ⟨5, 36000⟩ stAAPL = (stAAPL, []) ∧
    scheduler_cycle P250 .ok ⟨0, 36000⟩ stAAPL
      = check_price_alerts P250 .ok stAAPL :=
  ⟨(scheduler_single_global_gate P250 .ok ⟨5, 36000⟩ stAAPL).1 (by decide),
   (scheduler_single_global_gate P250 .ok ⟨0, 36000⟩ stAAPL).2 (by decide)⟩

/-- C8 counterexample: the 取消全部 (remove-all) reply for a user with zero
active records is the same fixed success string as for a user with an
active record — no count of removed records is reported and no distinct
"nothing to remove" result exists. -/
theorem cancel_all_reply_ignores_count :
    (remove_all_trackings .ok ⟨⟨[], []⟩, []⟩ "U").2 = true ∧
    (handle_cancel_all .ok ⟨⟨[], []⟩, []⟩ "U").2 = "✅ 已取消所有股票追蹤" ∧
    (handle_cancel_all .ok ⟨⟨[r2330], []⟩, []⟩ "U").2 = "✅ 已取消所有股票追蹤" := by
  refine ⟨rfl, rfl, rfl⟩

/-- C8 as amended: `remove_all_trackings` deactivates every record of the
user (rows are never deleted) and reports only a boolean success; the
user-visible reply is one fixed success message carrying neither the count
of removed records nor a distinct nothing-to-remove case. -/
theorem remove_all_boolean_report (st : SysState) (u : String) :
    ((remove_all_trackings .ok st u).1.db.stock_tracking.all
      (fun r => !(decide (r.user_id = u)) || !r.is_active)) = true ∧
    (remove_all_trackings .ok st u).1.db.stock_tracking.length
      = st.db.stock_tracking.length ∧
    (remove_all_trackings .ok st u).2 = true ∧
    (handle_cancel_all .ok st u).2 = "✅ 已取消所有股票追蹤" := by
  refine ⟨?_, ?_, rfl, rfl⟩
  · rw [List.all_eq_true]
    intro x hx
    simp only [remove_all_trackings, List.mem_map] at hx
    obtain ⟨r, hr, rfl⟩ := hx
    by_cases h : r.user_id = u <;> simp [h]
  · simp [remove_all_trackings]

/-- C9 counterexample: with durable storage raising during the operation,
`add_stock_tracking` accepts the alert into the in-memory fallback and
reports success, but `get_user_trackings` under the same storage failure
returns the empty list — the fallback-accepted alert is not visible to the
list operation. -/
theorem fallback_add_invisible_to_list :
    (add_stock_tracking .opFail ⟨⟨[], []⟩, []⟩ "U" "2330" 800 "買進").2 = true ∧
    (add_stock_tracking .opFail ⟨⟨[], []⟩, []⟩ "U" "2330" 800 "買進").1.mem
      = [("U", [⟨"2330", 800, "買進"⟩])] ∧
    get_user_trackings .opFail
      (add_stock_tracking .opFail ⟨⟨[], []⟩, []⟩ "U" "2330" 800 "買進").1 "U"
      = [] := by
  refine ⟨rfl, ?_, rfl⟩
  decide

/-- C9 as amended: only the add operation degrades to the in-memory
fallback, and only when the storage operation raises (a failed connection
makes add fail outright, with no fallback); the list and remove operations
never consult the fallback — list returns the empty list on either storage
failure — so an alert accepted via the fallback is not visible to list. -/
theorem storage_fallback_only_add (st : SysState) (u s : String) (tp : Rat)
    (a : String) :
    (add_stock_tracking .opFail st u s tp a).2 = true ∧
    (add_stock_tracking .opFail st u s tp a).1.db = st.db ∧
    ((add_stock_tracking .opFail st u s tp a).1.mem.any
      (fun e => decide (e.1 = u) && e.2.any (fun x => decide (x = ⟨s, tp, a⟩))))
      = true ∧
    get_user_trackings .opFail st u = [] ∧
    get_user_trackings .connFail st u = [] ∧
    (remove_all_trackings .opFail st u).2 = false ∧
    add_stock_tracking .connFail st u s tp a = (st, false) := by
  refine ⟨rfl, rfl, ?_, rfl, rfl, rfl, rfl⟩
  simp only [add_stock_tracking, mem_append]
  by_cases hex : st.mem.any (fun e => decide (e.1 = u))
  · rw [if_pos hex]
    obtain ⟨e, he, heu⟩ := List.any_eq_true.mp hex
    rw [decide_eq_true_eq] at heu
    apply List.any_eq_true.mpr
    refine ⟨(e.1, e.2 ++ [⟨s, tp, a⟩]), ?_, ?_⟩
    · apply List.mem_map.mpr
      exact ⟨e, he, by simp [heu]⟩
    · simp [heu, List.any_append]
  · rw [if_neg hex]
    apply List.any_eq_true.mpr
    refine ⟨(u, [⟨s, tp, a⟩]), by simp, by simp⟩

/-- C10: a non-digit (foreign-classified) symbol never resolves to absent —
when the general-purpose provider fails and the symbol is not a key of the
static table, the lookup returns the generic placeholder quote with price
100, change 0 and source tag "fallback_generic"; consequently an absent
result is only reachable for all-digit (domestic) symbols. -/
theorem foreign_lookup_never_absent (P : Providers) (s : String) :
    (isAllDigits s = false → P.yfinance s = none →
      fallback_data.find? (fun e => e.1 == s) = none →
      get_stock_info P s = some
        { symbol := s, name := "股票 " ++ s, price := 100, change := 0,
          change_percent := 0, source := "fallback_generic",
          market_state := "CLOSED" }) ∧
    (get_stock_info P s = none → isAllDigits s = true) := by
  constructor
  · intro h h1 h2
    simp [get_stock_info, h, h1, get_fallback_stock_info, h2]
  · intro h
    by_contra hd
    rw [Bool.not_eq_true] at hd
    simp only [get_stock_info, hd, Bool.false_eq_true, if_false] at h
    cases hy : P.yfinance s <;> simp [hy] at h

/-- Witness for C10: with every provider absent, the unknown foreign symbol
"aapl" still yields the generic placeholder quote, while the domestic
symbol "2330" is the one that resolves to absent. -/
theorem foreign_lookup_never_absent_witness :
    get_stock_info Pnone "aapl" = some
      { symbol := "aapl", name := "股票 " ++ "aapl", price := 100, change := 0,
        change_percent := 0, source := "fallback_generic",
        market_state := "CLOSED" } ∧
    isAllDigits "2330" = true :=
  ⟨(foreign_lookup_never_absent Pnone "aapl").1 (by decide) rfl (by decide),
   (foreign_lookup_never_absent Pnone "2330").2 rfl⟩
